import Mathlib

/-!
Shallow embedding of the RFID media display kiosk (`src/main.py`).

The display program maps RFID tag codes (typed by a keyboard-wedge reader)
to media filenames and shows them fullscreen, falling back to a welcome
image on unknown codes, load failures, inactivity timeout, and video
completion.  The embedding models the pure decision logic of each method of
`RFIDImageDisplay` as a function on an explicit application state, with the
filesystem and media backends abstracted into a read-only environment of
boolean oracles.  Tkinter scheduling (`root.after` handles) is modelled by
a list of pending timer identifiers plus the stored handle.
-/

namespace RFIDKiosk

/-! ### Python string helpers, modelled on the ASCII range -/

/-- Python whitespace characters (ASCII range), as tested by `str.strip()`. -/
def pyIsSpace (c : Char) : Bool :=
  c = ' ' || c = '\t' || c = '\n' || c = '\x0d' || c = '\x0b' || c = '\x0c'

/-- Python `str.strip()` on a character list: drop whitespace from both ends. -/
def stripList (cs : List Char) : List Char :=
  ((cs.dropWhile pyIsSpace).reverse.dropWhile pyIsSpace).reverse

/-- Python `str.strip()` (ASCII whitespace). -/
def pyStrip (s : String) : String :=
  String.mk (stripList s.toList)

/-- Python `str.isprintable()` for a single character, restricted to the
ASCII range (RFID readers emit ASCII digits); printable means a graphical
character or the space. -/
def pyIsPrintable (c : Char) : Bool :=
  0x20 ≤ c.toNat && c.toNat < 0x7f

/-- Python `str.lower()` restricted to ASCII case mapping. -/
def lowerString (s : String) : String :=
  String.mk (s.toList.map Char.toLower)

/-- Scan for the last non-empty `/`-separated component: `cur` is the
component being read, `lastSeen` the last non-empty one completed. -/
def lastComponent : List Char → List Char → List Char → List Char
  | [], cur, lastSeen => if cur ≠ [] then cur else lastSeen
  | '/' :: rest, cur, lastSeen =>
    lastComponent rest [] (if cur ≠ [] then cur else lastSeen)
  | c :: rest, cur, lastSeen => lastComponent rest (cur ++ [c]) lastSeen

/-- Model of `pathlib.PurePath(p).name`: the final non-empty path component. -/
def pathName (p : String) : String :=
  String.mk (lastComponent p.toList [] [])

/-- Model of `pathlib.PurePath(p).suffix`: the final extension of the name, i.e.
`name[i:]` for `i` the last index of a dot, provided `0 < i < len - 1`,
and `""` otherwise. -/
def pathSuffix (p : String) : String :=
  let name := (pathName p).toList
  match ((List.range name.length).filter
      (fun i => name.get? i = some '.')).getLast? with
  | some i => if 0 < i ∧ i + 1 < name.length then String.mk (name.drop i) else ""
  | none => ""

/-! ### Configuration (`load_config` in `main.py`) -/

/-- The `CONFIG_FILE` constant of `main.py`. -/
def CONFIG_FILE : String := "config.json"

/-- The `IMAGES_DIR` constant of `main.py`. -/
def IMAGES_DIR : String := "data/images"

/-- A validated configuration: the three fields `load_config` guarantees.
The JSON object `rfid_mappings` is modelled as an association list with
the key-unique lookup of a dictionary. -/
structure Config where
  rfid_mappings : List (String × String)
  inactivity_timeout : Nat
  welcome_image : String
deriving DecidableEq

/-- A parsed-but-unvalidated config file: each field may be absent. -/
structure RawConfig where
  rfid_mappings : Option (List (String × String))
  inactivity_timeout : Option Nat
  welcome_image : Option String

/-- The startup filesystem as `load_config` sees it: whether
`config.json` exists, and the parse result when it does (`none` models a
`json.JSONDecodeError` / `IOError`). -/
structure ConfigEnv where
  configExists : Bool
  parsed : Option RawConfig

/-- The `FileNotFoundError` message raised by `load_config`. -/
def configMissingMsg : String :=
  "Configuration file " ++ CONFIG_FILE ++ " not found.\n" ++
  "Please run calibrate.py first to set up the system."

/-- Model of `RFIDImageDisplay.load_config`: missing file raises `FileNotFoundError`
with an instruction to run calibration; an unreadable file raises
`RuntimeError`; otherwise absent fields are defaulted. -/
def load_config (e : ConfigEnv) : Except String Config :=
  if ¬ e.configExists then
    Except.error configMissingMsg
  else
    match e.parsed with
    | none => Except.error "Error loading config"
    | some raw =>
      Except.ok
        { rfid_mappings := raw.rfid_mappings.getD []
          inactivity_timeout := raw.inactivity_timeout.getD 30
          welcome_image := raw.welcome_image.getD "welcome.jpg" }

/-! ### Image scaling (`load_and_display_image` lines 228-241, and the same
computation in `_video_loop` lines 164-171) -/

/-- The scale-to-fit computation: `scale = min(W/w, H/h)` in exact
arithmetic, new size `(int(w*scale), int(h*scale))` (Python `int()`
truncates toward zero; the products are nonnegative, so it is a floor). -/
def computeScaledSize (screenW screenH imgW imgH : Nat) : Nat × Nat :=
  let scale_w : ℚ := (screenW : ℚ) / (imgW : ℚ)
  let scale_h : ℚ := (screenH : ℚ) / (imgH : ℚ)
  let scale : ℚ := min scale_w scale_h
  ((Int.floor ((imgW : ℚ) * scale)).toNat, (Int.floor ((imgH : ℚ) * scale)).toNat)

/-! ### Media classification (`is_video_file`, `get_media_path`) -/

/-- The `video_extensions` set of `is_video_file`. -/
def video_extensions : List String :=
  [".mp4", ".avi", ".mov", ".mkv", ".wmv", ".flv", ".webm"]

/-- Model of `RFIDImageDisplay.is_video_file`: the lowercased `Path(...).suffix`
is among the video extensions. -/
def is_video_file (filename : String) : Bool :=
  video_extensions.contains (lowerString (pathSuffix filename))

/-- Model of `RFIDImageDisplay.get_media_path`: `Path(IMAGES_DIR) / filename`. -/
def get_media_path (filename : String) : String :=
  IMAGES_DIR ++ "/" ++ filename

/-- Spec-side restatement for the dispatch claim: the lowercased suffix
of the filename is one of `.mp4, .avi, .mov, .mkv, .wmv, .flv, .webm`. -/
def specSuffixIsVideo (filename : String) : Prop :=
  lowerString (pathSuffix filename) ∈
    [".mp4", ".avi", ".mov", ".mkv", ".wmv", ".flv", ".webm"]

instance (filename : String) : Decidable (specSuffixIsVideo filename) := by
  unfold specSuffixIsVideo; infer_instance

/-! ### Application state

The mutable state of `RFIDImageDisplay` that the control flow reads and
writes.  `cv2`/PIL/tkinter effects are abstracted: what is currently shown
becomes the `display` field, a `print` becomes an append to `log`, and the
tkinter `after` timer queue becomes the list `pendingTimers` of scheduled
inactivity callbacks together with the stored handle `inactivityTimer`
(`self.inactivity_timer`).  `processedCodes` records the codes handed to
`display_rfid_media`, i.e. the codes accepted as tag codes. -/

/-- What the fullscreen label currently shows. -/
inductive Display where
  /-- An image file shown by `load_and_display_image`. -/
  | image (filename : String)
  /-- A video file being played by `play_video` / `_video_loop`. -/
  | video (filename : String)
  /-- The textual fallback of `display_welcome_image` when the welcome
  image itself cannot be shown. -/
  | welcomeText (filename : String)
  /-- Nothing shown yet (before `__init__` finishes). -/
  | blank
deriving DecidableEq

/-- The mutable fields of `RFIDImageDisplay`. -/
structure AppState where
  display : Display
  videoPlaying : Bool
  inactivityTimer : Option Nat
  pendingTimers : List Nat
  nextTimerId : Nat
  rfidBuffer : String
  processedCodes : List String
  log : List String
  running : Bool
deriving DecidableEq

/-- The read-only world: the loaded configuration and oracles for whether
a media file exists under `data/images`, whether PIL can open and render
it, and whether `cv2.VideoCapture` can open it. -/
structure Env where
  config : Config
  mediaExists : String → Bool
  imageLoadOk : String → Bool
  videoOpenOk : String → Bool

/-- A `print(...)` call: append the message to the log. -/
def logMsg (m : String) (s : AppState) : AppState :=
  { s with log := s.log ++ [m] }

/-- Model of `RFIDImageDisplay.stop_video`: clear the playing flag (capture and
worker-thread teardown are abstracted away). -/
def stop_video (s : AppState) : AppState :=
  if s.videoPlaying then { s with videoPlaying := false } else s

/-- Model of `RFIDImageDisplay.reset_inactivity_timer`: cancel the pending timer
held in `self.inactivity_timer` if any; then, unless a video is playing,
schedule a fresh inactivity callback and remember its handle (the
configured timeout duration is not part of the untimed model). -/
def reset_inactivity_timer (_env : Env) (s : AppState) : AppState :=
  let s1 :=
    match s.inactivityTimer with
    | some id =>
      { s with pendingTimers := s.pendingTimers.erase id, inactivityTimer := none }
    | none => s
  if s1.videoPlaying then s1
  else
    { s1 with
      pendingTimers := s1.nextTimerId :: s1.pendingTimers
      inactivityTimer := some s1.nextTimerId
      nextTimerId := s1.nextTimerId + 1 }

/-- Model of `RFIDImageDisplay.play_video`: fail with a warning when the file is
missing; otherwise stop any current video, fail with an error if the
capture cannot be opened, and otherwise mark the video as playing (the
worker thread then posts its frames). -/
def play_video (env : Env) (filename : String) (s : AppState) : Bool × AppState :=
  if ¬ env.mediaExists filename then
    (false, logMsg ("Warning: Video not found: " ++ get_media_path filename) s)
  else
    let s1 := stop_video s
    if ¬ env.videoOpenOk filename then
      (false, logMsg ("Error: Could not open video " ++ filename) s1)
    else
      (true, { s1 with videoPlaying := true, display := Display.video filename })

/-- Model of `RFIDImageDisplay.load_and_display_image`: stop any current video,
fail with a warning when the file is missing or an error when PIL cannot
load it, and otherwise show the (scale-to-fit) image. -/
def load_and_display_image (env : Env) (filename : String) (s : AppState) :
    Bool × AppState :=
  let s1 := stop_video s
  if ¬ env.mediaExists filename then
    (false, logMsg ("Warning: Image not found: " ++ get_media_path filename) s1)
  else if ¬ env.imageLoadOk filename then
    (false, logMsg ("Error loading image " ++ filename) s1)
  else
    (true, { s1 with display := Display.image filename })

/-- Model of `RFIDImageDisplay.load_and_display_media`: dispatch on the file
extension. -/
def load_and_display_media (env : Env) (filename : String) (s : AppState) :
    Bool × AppState :=
  if is_video_file filename then play_video env filename s
  else load_and_display_image env filename s

/-- Model of `RFIDImageDisplay.display_welcome_image`: stop any current video, try
the configured welcome image, and fall back to a textual message when it
cannot be shown. -/
def display_welcome_image (env : Env) (s : AppState) : AppState :=
  let s1 := stop_video s
  let w := env.config.welcome_image
  let r := load_and_display_image env w s1
  if r.1 then r.2
  else { r.2 with display := Display.welcomeText w }

/-- Model of `RFIDImageDisplay.display_rfid_media`: look the code up in
`rfid_mappings`; on a hit show the mapped media (restarting the
inactivity timer only for images), on a load failure or a miss fall back
to the welcome image. -/
def display_rfid_media (env : Env) (code : String) (s : AppState) : AppState :=
  match env.config.rfid_mappings.lookup code with
  | some media =>
    let r := load_and_display_media env media s
    if r.1 then
      let mtype := if is_video_file media then "video" else "image"
      let s2 := logMsg ("Displayed " ++ mtype ++ " for RFID " ++ code ++ ": " ++ media) r.2
      if ¬ is_video_file media then reset_inactivity_timer env s2 else s2
    else
      display_welcome_image env
        (logMsg ("Failed to load media for RFID " ++ code ++ ": " ++ media) r.2)
  | none =>
    display_welcome_image env
      (logMsg ("RFID code " ++ code ++ " not found in mappings") s)

/-- Model of `RFIDImageDisplay._on_video_finished` (scheduled by the end-of-frames
branch of `_video_loop`): stop the video, show the welcome image, restart
the inactivity timer. -/
def _on_video_finished (env : Env) (s : AppState) : AppState :=
  reset_inactivity_timer env (display_welcome_image env (stop_video s))

/-- Model of `RFIDImageDisplay._on_inactivity_timeout`: show the welcome image
only when no video is playing. -/
def _on_inactivity_timeout (env : Env) (s : AppState) : AppState :=
  if ¬ s.videoPlaying then display_welcome_image env s else s

/-- Model of `RFIDImageDisplay._process_rfid_input`: strip the code and, when
non-empty, record it, display its media, and reset the inactivity timer. -/
def _process_rfid_input (env : Env) (code : String) (s : AppState) : AppState :=
  let c := pyStrip code
  if c ≠ "" then
    let s1 := logMsg ("Received RFID code: " ++ c)
      { s with processedCodes := s.processedCodes ++ [c] }
    reset_inactivity_timer env (display_rfid_media env c s1)
  else s

/-- Model of `RFIDImageDisplay.quit`: clear the running flag and stop any video. -/
def quit (s : AppState) : AppState :=
  stop_video { s with running := false }

/-- A key press as `on_key_press` distinguishes it: Return/KP_Enter,
Escape, or a character key. -/
inductive KeyEvent where
  | enter
  | escape
  | char (c : Char)
deriving DecidableEq

/-- Model of `RFIDImageDisplay.on_key_press`: Enter processes a non-empty buffer
(stripped) and clears it; Escape quits; a printable character is appended
to the buffer. -/
def on_key_press (env : Env) (k : KeyEvent) (s : AppState) : AppState :=
  match k with
  | KeyEvent.enter =>
    if s.rfidBuffer ≠ "" then
      _process_rfid_input env (pyStrip s.rfidBuffer) { s with rfidBuffer := "" }
    else s
  | KeyEvent.escape => quit s
  | KeyEvent.char c =>
    if pyIsPrintable c then { s with rfidBuffer := s.rfidBuffer.push c } else s

/-- Model of `RFIDImageDisplay.__init__` after `load_config`: fresh state, welcome
image shown, inactivity timer started. -/
def initState (env : Env) : AppState :=
  let s0 : AppState :=
    { display := Display.blank, videoPlaying := false, inactivityTimer := none,
      pendingTimers := [], nextTimerId := 0, rfidBuffer := "",
      processedCodes := [], log := [], running := true }
  reset_inactivity_timer env (display_welcome_image env s0)

/-- The events the tkinter main loop delivers to the program: key
presses, a scheduled inactivity callback firing, and the video worker
hitting end-of-stream. -/
inductive Event where
  | key (k : KeyEvent)
  | timerFire (id : Nat)
  | videoEnd
deriving DecidableEq

/-- A scheduled inactivity callback fires: it leaves the pending queue
and `_on_inactivity_timeout` runs (the stored handle is not cleared, as
in the source). -/
def fireTimer (env : Env) (id : Nat) (s : AppState) : AppState :=
  if id ∈ s.pendingTimers then
    _on_inactivity_timeout env { s with pendingTimers := s.pendingTimers.erase id }
  else s

/-- The end-of-frames branch of `_video_loop` (lines 155-162): when the
loop is live and `read()` fails, clear the playing flag and run
`_on_video_finished` on the main thread. -/
def videoEndStep (env : Env) (s : AppState) : AppState :=
  if s.videoPlaying then _on_video_finished env { s with videoPlaying := false }
  else s

/-- One main-loop step. -/
def step (env : Env) (s : AppState) : Event → AppState
  | Event.key k => on_key_press env k s
  | Event.timerFire id => fireTimer env id s
  | Event.videoEnd => videoEndStep env s

/-- States the program can be in: the initial state and anything an event
step produces from a reachable state. -/
inductive Reachable (env : Env) : AppState → Prop where
  | init : Reachable env (initState env)
  | next : ∀ s e, Reachable env s → Reachable env (step env s e)

/-! ### Timer invariant -/

/-- At most one inactivity callback is scheduled, and any scheduled one is
the one whose handle `reset_inactivity_timer` stored. -/
def TimerInv (s : AppState) : Prop :=
  s.pendingTimers.length ≤ 1 ∧ ∀ id ∈ s.pendingTimers, s.inactivityTimer = some id

instance (s : AppState) : Decidable (TimerInv s) := by
  unfold TimerInv; infer_instance

/-! ### Concrete fixtures used by witnesses -/

/-- A small configuration with one image mapping and one video mapping. -/
def cfgA : Config :=
  { rfid_mappings := [("tag1", "pic.jpg"), ("tag2", "vid.mp4")]
    inactivity_timeout := 30
    welcome_image := "welcome.jpg" }

/-- An environment where every media file exists and loads. -/
def envA : Env :=
  { config := cfgA
    mediaExists := fun _ => true
    imageLoadOk := fun _ => true
    videoOpenOk := fun _ => true }

/-- An environment whose one mapped file does not exist, only the welcome
image does. -/
def envB : Env :=
  { config := { rfid_mappings := [("tagX", "ghost.png")], inactivity_timeout := 30,
                welcome_image := "welcome.jpg" }
    mediaExists := fun f => f == "welcome.jpg"
    imageLoadOk := fun _ => true
    videoOpenOk := fun _ => true }

/-- A bare state, as after construction but before `__init__` acts. -/
def stA : AppState :=
  { display := Display.blank, videoPlaying := false, inactivityTimer := none,
    pendingTimers := [], nextTimerId := 0, rfidBuffer := "",
    processedCodes := [], log := [], running := true }

/-- A state in which a video is playing and an old timer handle `5` is
still pending. -/
def stV : AppState :=
  { display := Display.video "vid.mp4", videoPlaying := true, inactivityTimer := some 5,
    pendingTimers := [5], nextTimerId := 6, rfidBuffer := "",
    processedCodes := [], log := [], running := true }

/-- A state whose input buffer holds a single space. -/
def stSpace : AppState :=
  { stA with rfidBuffer := " " }

/-- A state whose input buffer holds a tag code surrounded by spaces. -/
def stTag : AppState :=
  { stA with rfidBuffer := " tag1 " }

/-! ### Structural lemmas -/

@[simp] theorem display_logMsg (m : String) (s : AppState) :
    (logMsg m s).display = s.display := rfl

@[simp] theorem videoPlaying_logMsg (m : String) (s : AppState) :
    (logMsg m s).videoPlaying = s.videoPlaying := rfl

@[simp] theorem pendingTimers_logMsg (m : String) (s : AppState) :
    (logMsg m s).pendingTimers = s.pendingTimers := rfl

@[simp] theorem inactivityTimer_logMsg (m : String) (s : AppState) :
    (logMsg m s).inactivityTimer = s.inactivityTimer := rfl

@[simp] theorem nextTimerId_logMsg (m : String) (s : AppState) :
    (logMsg m s).nextTimerId = s.nextTimerId := rfl

@[simp] theorem log_logMsg (m : String) (s : AppState) :
    (logMsg m s).log = s.log ++ [m] := rfl

@[simp] theorem processedCodes_logMsg (m : String) (s : AppState) :
    (logMsg m s).processedCodes = s.processedCodes := rfl

@[simp] theorem rfidBuffer_logMsg (m : String) (s : AppState) :
    (logMsg m s).rfidBuffer = s.rfidBuffer := rfl

@[simp] theorem display_stop_video (s : AppState) :
    (stop_video s).display = s.display := by
  unfold stop_video; split <;> rfl

@[simp] theorem videoPlaying_stop_video (s : AppState) :
    (stop_video s).videoPlaying = false := by
  unfold stop_video; split <;> simp_all

@[simp] theorem pendingTimers_stop_video (s : AppState) :
    (stop_video s).pendingTimers = s.pendingTimers := by
  unfold stop_video; split <;> rfl

@[simp] theorem inactivityTimer_stop_video (s : AppState) :
    (stop_video s).inactivityTimer = s.inactivityTimer := by
  unfold stop_video; split <;> rfl

@[simp] theorem nextTimerId_stop_video (s : AppState) :
    (stop_video s).nextTimerId = s.nextTimerId := by
  unfold stop_video; split <;> rfl

@[simp] theorem log_stop_video (s : AppState) :
    (stop_video s).log = s.log := by
  unfold stop_video; split <;> rfl

@[simp] theorem processedCodes_stop_video (s : AppState) :
    (stop_video s).processedCodes = s.processedCodes := by
  unfold stop_video; split <;> rfl

@[simp] theorem rfidBuffer_stop_video (s : AppState) :
    (stop_video s).rfidBuffer = s.rfidBuffer := by
  unfold stop_video; split <;> rfl

theorem stop_video_idem (s : AppState) : stop_video (stop_video s) = stop_video s := by
  unfold stop_video; split <;> simp_all

@[simp] theorem display_reset (env : Env) (s : AppState) :
    (reset_inactivity_timer env s).display = s.display := by
  unfold reset_inactivity_timer
  rcases s.inactivityTimer with _ | id <;> dsimp <;> split <;> rfl

@[simp] theorem videoPlaying_reset (env : Env) (s : AppState) :
    (reset_inactivity_timer env s).videoPlaying = s.videoPlaying := by
  unfold reset_inactivity_timer
  rcases s.inactivityTimer with _ | id <;> dsimp <;> split <;> rfl

@[simp] theorem log_reset (env : Env) (s : AppState) :
    (reset_inactivity_timer env s).log = s.log := by
  unfold reset_inactivity_timer
  rcases s.inactivityTimer with _ | id <;> dsimp <;> split <;> rfl

/-- Successful image display: the video (if any) is stopped and the image
is shown. -/
theorem load_and_display_image_ok (env : Env) (f : String) (s : AppState)
    (h1 : env.mediaExists f = true) (h2 : env.imageLoadOk f = true) :
    load_and_display_image env f s =
      (true, { stop_video s with display := Display.image f }) := by
  unfold load_and_display_image
  simp [h1, h2]

/-- Successful video start: the previous video is stopped and the new one
marked playing. -/
theorem play_video_ok (env : Env) (f : String) (s : AppState)
    (h1 : env.mediaExists f = true) (h2 : env.videoOpenOk f = true) :
    play_video env f s =
      (true, { stop_video s with videoPlaying := true, display := Display.video f }) := by
  unfold play_video
  simp [h1, h2]

/-- When the welcome image is present and loadable, `display_welcome_image`
shows exactly it. -/
theorem display_welcome_image_ok (env : Env) (s : AppState)
    (hw : env.mediaExists env.config.welcome_image = true)
    (hl : env.imageLoadOk env.config.welcome_image = true) :
    display_welcome_image env s =
      { stop_video s with display := Display.image env.config.welcome_image } := by
  unfold display_welcome_image
  dsimp only
  rw [load_and_display_image_ok env _ _ hw hl, stop_video_idem]
  simp

/-! ### Field-preservation lemmas

`timerData` and `inputData` bundle the fields the timer invariant and the
input-buffer claims read; most operations leave them untouched. -/

def timerData (s : AppState) : List Nat × Option Nat × Nat :=
  (s.pendingTimers, s.inactivityTimer, s.nextTimerId)

def inputData (s : AppState) : List String × String :=
  (s.processedCodes, s.rfidBuffer)

@[simp] theorem timerData_logMsg (m : String) (s : AppState) :
    timerData (logMsg m s) = timerData s := rfl

@[simp] theorem inputData_logMsg (m : String) (s : AppState) :
    inputData (logMsg m s) = inputData s := rfl

@[simp] theorem timerData_stop_video (s : AppState) :
    timerData (stop_video s) = timerData s := by
  unfold stop_video; split <;> rfl

@[simp] theorem inputData_stop_video (s : AppState) :
    inputData (stop_video s) = inputData s := by
  unfold stop_video; split <;> rfl

@[simp] theorem inputData_reset (env : Env) (s : AppState) :
    inputData (reset_inactivity_timer env s) = inputData s := by
  unfold reset_inactivity_timer
  rcases s.inactivityTimer with _ | id <;> dsimp <;> split <;> rfl

@[simp] theorem timerData_snd_load_and_display_image (env : Env) (f : String)
    (s : AppState) :
    timerData (load_and_display_image env f s).2 = timerData s := by
  unfold load_and_display_image
  dsimp only
  split
  · simp
  · split <;> simp [timerData]

@[simp] theorem inputData_snd_load_and_display_image (env : Env) (f : String)
    (s : AppState) :
    inputData (load_and_display_image env f s).2 = inputData s := by
  unfold load_and_display_image
  dsimp only
  split
  · simp
  · split <;> simp [inputData]

@[simp] theorem timerData_snd_play_video (env : Env) (f : String) (s : AppState) :
    timerData (play_video env f s).2 = timerData s := by
  unfold play_video
  dsimp only
  split
  · simp
  · split <;> simp [timerData]

@[simp] theorem inputData_snd_play_video (env : Env) (f : String) (s : AppState) :
    inputData (play_video env f s).2 = inputData s := by
  unfold play_video
  dsimp only
  split
  · simp
  · split <;> simp [inputData]

@[simp] theorem timerData_snd_load_and_display_media (env : Env) (f : String)
    (s : AppState) :
    timerData (load_and_display_media env f s).2 = timerData s := by
  unfold load_and_display_media; split <;> simp

@[simp] theorem inputData_snd_load_and_display_media (env : Env) (f : String)
    (s : AppState) :
    inputData (load_and_display_media env f s).2 = inputData s := by
  unfold load_and_display_media; split <;> simp

@[simp] theorem timerData_display_welcome_image (env : Env) (s : AppState) :
    timerData (display_welcome_image env s) = timerData s := by
  unfold display_welcome_image
  dsimp only
  split
  · simp
  · have := timerData_snd_load_and_display_image env env.config.welcome_image
      (stop_video s)
    simp_all [timerData]

@[simp] theorem inputData_display_welcome_image (env : Env) (s : AppState) :
    inputData (display_welcome_image env s) = inputData s := by
  unfold display_welcome_image
  dsimp only
  split
  · simp
  · have := inputData_snd_load_and_display_image env env.config.welcome_image
      (stop_video s)
    simp_all [inputData]

@[simp] theorem inputData_display_rfid_media (env : Env) (code : String)
    (s : AppState) :
    inputData (display_rfid_media env code s) = inputData s := by
  unfold display_rfid_media
  cases env.config.rfid_mappings.lookup code with
  | none => simp
  | some media =>
    dsimp only
    split
    · split <;> simp
    · have := inputData_snd_load_and_display_media env media s
      have h2 := inputData_display_welcome_image env
        (logMsg ("Failed to load media for RFID " ++ code ++ ": " ++ media)
          (load_and_display_media env media s).2)
      simp_all

theorem processedCodes_of_inputData {s t : AppState}
    (h : inputData t = inputData s) : t.processedCodes = s.processedCodes :=
  congrArg Prod.fst h

theorem rfidBuffer_of_inputData {s t : AppState}
    (h : inputData t = inputData s) : t.rfidBuffer = s.rfidBuffer :=
  congrArg Prod.snd h

theorem pendingTimers_of_timerData {s t : AppState}
    (h : timerData t = timerData s) : t.pendingTimers = s.pendingTimers :=
  congrArg Prod.fst h

theorem inactivityTimer_of_timerData {s t : AppState}
    (h : timerData t = timerData s) : t.inactivityTimer = s.inactivityTimer :=
  congrArg (fun p => p.2.1) h

theorem timerInv_of_timerData {s t : AppState}
    (hs : TimerInv s) (h : timerData t = timerData s) : TimerInv t := by
  unfold TimerInv at hs ⊢
  rw [pendingTimers_of_timerData h, inactivityTimer_of_timerData h]
  exact hs

/-! ### Lemmas about `pyStrip` -/

theorem dropWhile_dropWhile {α : Type} (p : α → Bool) (l : List α) :
    (l.dropWhile p).dropWhile p = l.dropWhile p := by
  induction l with
  | nil => rfl
  | cons a t ih =>
    by_cases h : p a = true <;> simp [List.dropWhile_cons, h, ih]

theorem not_of_head_dropWhile {α : Type} (p : α → Bool) (l : List α) (a : α) (t : List α)
    (h : l.dropWhile p = a :: t) : p a = false := by
  induction l with
  | nil => simp at h
  | cons b r ih =>
    by_cases hb : p b = true
    · rw [List.dropWhile_cons, if_pos hb] at h
      exact ih h
    · rw [List.dropWhile_cons, if_neg hb] at h
      cases h
      simp [hb]

theorem dropWhile_append_last {α : Type} (p : α → Bool) (a : α) (h : p a = false) :
    ∀ l : List α, ∃ l2, (l ++ [a]).dropWhile p = l2 ++ [a] := by
  intro l
  induction l with
  | nil => exact ⟨[], by simp [List.dropWhile_cons, h]⟩
  | cons b t ih =>
    by_cases hb : p b = true
    · obtain ⟨l2, hl2⟩ := ih
      exact ⟨l2, by simp [List.dropWhile_cons, hb, hl2]⟩
    · exact ⟨b :: t, by simp [List.dropWhile_cons, hb]⟩

theorem stripList_idem (cs : List Char) : stripList (stripList cs) = stripList cs := by
  unfold stripList
  cases h : cs.dropWhile pyIsSpace with
  | nil => simp
  | cons a t =>
    have hpa : pyIsSpace a = false := not_of_head_dropWhile _ cs a t h
    obtain ⟨l2, hl2⟩ := dropWhile_append_last pyIsSpace a hpa t.reverse
    have hrev : (a :: t).reverse = t.reverse ++ [a] := by simp
    rw [hrev, hl2]
    have h1 : List.dropWhile pyIsSpace (l2 ++ [a]).reverse = (l2 ++ [a]).reverse := by
      rw [List.reverse_append]
      simp [List.dropWhile_cons, hpa]
    rw [h1]
    have h2 : (l2 ++ [a]).reverse.reverse = l2 ++ [a] := by simp
    rw [h2, ← hl2, dropWhile_dropWhile]

theorem pyStrip_idem (s : String) : pyStrip (pyStrip s) = pyStrip s := by
  unfold pyStrip
  exact congrArg String.mk (stripList_idem s.toList)

/-! ### Lemmas about the inactivity timer -/

theorem pending_nil_of_handle_none (s : AppState) (hinv : TimerInv s)
    (h : s.inactivityTimer = none) : s.pendingTimers = [] := by
  cases hp : s.pendingTimers with
  | nil => rfl
  | cons a t =>
    have ha := hinv.2 a (by rw [hp]; exact List.mem_cons_self a t)
    rw [h] at ha
    exact Option.noConfusion ha

theorem pending_erase_handle (s : AppState) (hinv : TimerInv s) {id : Nat}
    (h : s.inactivityTimer = some id) : s.pendingTimers.erase id = [] := by
  rcases hp : s.pendingTimers with _ | ⟨a, t⟩
  · rfl
  · have ha := hinv.2 a (by rw [hp]; exact List.mem_cons_self a t)
    rw [h] at ha
    have haid : a = id := (Option.some.inj ha).symm
    have hlen := hinv.1
    rw [hp] at hlen
    rcases t with _ | ⟨b, r⟩
    · subst haid
      simp
    · exfalso
      simp at hlen

/-- After a cancel that emptied the queue, the arming half of
`reset_inactivity_timer` keeps at most one callback pending. -/
theorem timerInv_arm_branch (t : AppState) (hp : t.pendingTimers = []) :
    TimerInv (if t.videoPlaying = true then t
      else { t with pendingTimers := t.nextTimerId :: t.pendingTimers,
                    inactivityTimer := some t.nextTimerId,
                    nextTimerId := t.nextTimerId + 1 }) := by
  split
  · exact ⟨by rw [hp]; simp, fun j hj => by rw [hp] at hj; simp at hj⟩
  · refine ⟨?_, ?_⟩
    · show (t.nextTimerId :: t.pendingTimers).length ≤ 1
      rw [hp]; simp
    · intro j hj
      show some t.nextTimerId = some j
      rw [hp] at hj
      simp at hj
      rw [hj]

theorem timerInv_reset (env : Env) (s : AppState) (hinv : TimerInv s) :
    TimerInv (reset_inactivity_timer env s) := by
  unfold reset_inactivity_timer
  rcases ht : s.inactivityTimer with _ | id
  · dsimp only
    exact timerInv_arm_branch s (pending_nil_of_handle_none s hinv ht)
  · dsimp only
    exact timerInv_arm_branch
      { s with pendingTimers := s.pendingTimers.erase id, inactivityTimer := none }
      (pending_erase_handle s hinv ht)

/-- With a live video, `reset_inactivity_timer` only cancels: under the
timer invariant the queue ends empty, the handle cleared, and no new
callback is created. -/
theorem reset_cancels_only_when_video (env : Env) (s : AppState)
    (hinv : TimerInv s) (h : s.videoPlaying = true) :
    (reset_inactivity_timer env s).pendingTimers = [] ∧
    (reset_inactivity_timer env s).inactivityTimer = none ∧
    (reset_inactivity_timer env s).nextTimerId = s.nextTimerId := by
  unfold reset_inactivity_timer
  rcases ht : s.inactivityTimer with _ | id
  · dsimp only
    rw [if_pos h]
    exact ⟨pending_nil_of_handle_none s hinv ht, ht, rfl⟩
  · dsimp only
    rw [if_pos h]
    exact ⟨pending_erase_handle s hinv ht, rfl, rfl⟩

/-- With no video playing, `reset_inactivity_timer` always arms a fresh
callback and stores its handle. -/
theorem reset_arms (env : Env) (s : AppState) (h : s.videoPlaying = false) :
    (reset_inactivity_timer env s).inactivityTimer = some s.nextTimerId ∧
    s.nextTimerId ∈ (reset_inactivity_timer env s).pendingTimers ∧
    (reset_inactivity_timer env s).nextTimerId = s.nextTimerId + 1 := by
  unfold reset_inactivity_timer
  rcases ht : s.inactivityTimer with _ | id <;> dsimp only <;>
    rw [if_neg (by simp [h])] <;>
    exact ⟨rfl, List.mem_cons_self _ _, rfl⟩

theorem timerInv_display_rfid_media (env : Env) (code : String) (s : AppState)
    (hinv : TimerInv s) : TimerInv (display_rfid_media env code s) := by
  unfold display_rfid_media
  cases env.config.rfid_mappings.lookup code with
  | none =>
    exact timerInv_of_timerData hinv
      (by rw [timerData_display_welcome_image, timerData_logMsg])
  | some media =>
    dsimp only
    split
    · split
      · exact timerInv_reset env _ (timerInv_of_timerData hinv
          (by rw [timerData_logMsg, timerData_snd_load_and_display_media]))
      · exact timerInv_of_timerData hinv
          (by rw [timerData_logMsg, timerData_snd_load_and_display_media])
    · exact timerInv_of_timerData hinv
        (by rw [timerData_display_welcome_image, timerData_logMsg,
                timerData_snd_load_and_display_media])

theorem timerInv_on_key_press (env : Env) (k : KeyEvent) (s : AppState)
    (hinv : TimerInv s) : TimerInv (on_key_press env k s) := by
  cases k with
  | enter =>
    show TimerInv (if s.rfidBuffer ≠ "" then
      _process_rfid_input env (pyStrip s.rfidBuffer) { s with rfidBuffer := "" } else s)
    split
    · unfold _process_rfid_input
      dsimp only
      split
      · apply timerInv_reset
        apply timerInv_display_rfid_media
        exact timerInv_of_timerData hinv (by rw [timerData_logMsg]; rfl)
      · exact timerInv_of_timerData hinv rfl
    · exact hinv
  | escape =>
    show TimerInv (quit s)
    unfold quit
    exact timerInv_of_timerData hinv (by rw [timerData_stop_video]; rfl)
  | char c =>
    show TimerInv (if pyIsPrintable c = true then
      { s with rfidBuffer := s.rfidBuffer.push c } else s)
    split
    · exact timerInv_of_timerData hinv rfl
    · exact hinv

theorem timerInv_fireTimer (env : Env) (id : Nat) (s : AppState)
    (hinv : TimerInv s) : TimerInv (fireTimer env id s) := by
  unfold fireTimer
  split
  · have hu : TimerInv { s with pendingTimers := s.pendingTimers.erase id } := by
      refine ⟨?_, ?_⟩
      · show (s.pendingTimers.erase id).length ≤ 1
        exact le_trans (s.pendingTimers.erase_sublist id).length_le hinv.1
      · intro j hj
        show s.inactivityTimer = some j
        exact hinv.2 j (List.mem_of_mem_erase hj)
    unfold _on_inactivity_timeout
    split
    · exact timerInv_of_timerData hu (by rw [timerData_display_welcome_image])
    · exact hu
  · exact hinv

theorem timerInv_videoEndStep (env : Env) (s : AppState)
    (hinv : TimerInv s) : TimerInv (videoEndStep env s) := by
  unfold videoEndStep
  split
  · unfold _on_video_finished
    apply timerInv_reset
    exact timerInv_of_timerData hinv
      (by rw [timerData_display_welcome_image, timerData_stop_video]; rfl)
  · exact hinv

theorem timerInv_step (env : Env) (s : AppState) (e : Event)
    (hinv : TimerInv s) : TimerInv (step env s e) := by
  cases e with
  | key k => exact timerInv_on_key_press env k s hinv
  | timerFire id => exact timerInv_fireTimer env id s hinv
  | videoEnd => exact timerInv_videoEndStep env s hinv

theorem timerInv_initState (env : Env) : TimerInv (initState env) := by
  unfold initState
  dsimp only
  apply timerInv_reset
  have h0 : TimerInv stA := by decide
  exact timerInv_of_timerData h0 (by rw [timerData_display_welcome_image]; rfl)

/-- The input fields survive a display-then-reset round trip. -/
theorem inputData_reset_display (env : Env) (c m : String) (s : AppState) :
    inputData (reset_inactivity_timer env
      (display_rfid_media env c (logMsg m s))) = inputData s := by
  rw [inputData_reset, inputData_display_rfid_media, inputData_logMsg]

theorem timerInv_reachable (env : Env) (s : AppState) (h : Reachable env s) :
    TimerInv s := by
  induction h with
  | init => exact timerInv_initState env
  | next s e _ ih => exact timerInv_step env s e ih

/-! ### Claims -/

/-- C1: for every tag code that is a key of `rfid_mappings`, processing it
via `display_rfid_media` looks up exactly its mapped media filename and
displays that file, dispatched to video or image display by extension. -/
theorem C1_known_tag_displays_mapped_media (env : Env) (s : AppState)
    (code media : String)
    (hmap : env.config.rfid_mappings.lookup code = some media)
    (hex : env.mediaExists media = true)
    (hv : is_video_file media = true → env.videoOpenOk media = true)
    (hi : is_video_file media = false → env.imageLoadOk media = true) :
    (display_rfid_media env code s).display =
      if is_video_file media then Display.video media else Display.image media := by
  unfold display_rfid_media
  simp only [hmap]
  cases hvid : is_video_file media with
  | false =>
    rw [show load_and_display_media env media s = load_and_display_image env media s by
      unfold load_and_display_media; simp [hvid]]
    rw [load_and_display_image_ok env media s hex (hi hvid)]
    simp [hvid]
  | true =>
    rw [show load_and_display_media env media s = play_video env media s by
      unfold load_and_display_media; simp [hvid]]
    rw [play_video_ok env media s hex (hv hvid)]
    simp [hvid]

/-- Witness for C1 at the concrete mapping `tag1 ↦ pic.jpg`. -/
theorem C1_witness :
    envA.config.rfid_mappings.lookup "tag1" = some "pic.jpg" ∧
    (display_rfid_media envA "tag1" stA).display =
      (if is_video_file "pic.jpg" then Display.video "pic.jpg"
       else Display.image "pic.jpg") :=
  ⟨by decide,
   C1_known_tag_displays_mapped_media envA stA "tag1" "pic.jpg"
     (by decide) (by decide) (by decide) (by decide)⟩

/-- C2: for every tag code that is not a key of `rfid_mappings`,
`display_rfid_media` logs the miss and displays the welcome image instead
of any mapped media. -/
theorem C2_unknown_tag_falls_back_to_welcome (env : Env) (s : AppState)
    (code : String)
    (hmap : env.config.rfid_mappings.lookup code = none)
    (hw : env.mediaExists env.config.welcome_image = true)
    (hl : env.imageLoadOk env.config.welcome_image = true) :
    display_rfid_media env code s =
      display_welcome_image env
        (logMsg ("RFID code " ++ code ++ " not found in mappings") s) ∧
    (display_rfid_media env code s).display = Display.image env.config.welcome_image := by
  have hbranch : display_rfid_media env code s =
      display_welcome_image env
        (logMsg ("RFID code " ++ code ++ " not found in mappings") s) := by
    unfold display_rfid_media
    simp only [hmap]
  refine ⟨hbranch, ?_⟩
  rw [hbranch, display_welcome_image_ok env _ hw hl]

/-- Witness for C2 at the concrete unmapped code `nope`. -/
theorem C2_witness :
    envA.config.rfid_mappings.lookup "nope" = none ∧
    (display_rfid_media envA "nope" stA).display =
      Display.image envA.config.welcome_image :=
  ⟨by decide,
   (C2_unknown_tag_falls_back_to_welcome envA stA "nope"
     (by decide) (by decide) (by decide)).2⟩

/-- C3: when video playback reaches end-of-stream, the end-of-frames
branch clears the playing flag and runs `_on_video_finished`, which stops
the video, displays the welcome image, and restarts the inactivity timer
with a freshly scheduled callback. -/
theorem C3_video_end_returns_to_welcome_and_restarts_timer (env : Env)
    (s : AppState) (hplay : s.videoPlaying = true)
    (hw : env.mediaExists env.config.welcome_image = true)
    (hl : env.imageLoadOk env.config.welcome_image = true) :
    (step env s Event.videoEnd).videoPlaying = false ∧
    (step env s Event.videoEnd).display = Display.image env.config.welcome_image ∧
    (step env s Event.videoEnd).inactivityTimer = some s.nextTimerId ∧
    s.nextTimerId ∈ (step env s Event.videoEnd).pendingTimers ∧
    (step env s Event.videoEnd).nextTimerId = s.nextTimerId + 1 := by
  have hsv : stop_video { s with videoPlaying := false } =
      { s with videoPlaying := false } := by
    unfold stop_video; simp
  have hstep : step env s Event.videoEnd =
      reset_inactivity_timer env
        { s with videoPlaying := false,
                 display := Display.image env.config.welcome_image } := by
    show videoEndStep env s = _
    unfold videoEndStep
    rw [if_pos hplay]
    unfold _on_video_finished
    rw [hsv, display_welcome_image_ok env _ hw hl, hsv]
  rw [hstep]
  obtain ⟨h1, h2, h3⟩ := reset_arms env
    { s with videoPlaying := false,
             display := Display.image env.config.welcome_image } rfl
  exact ⟨by simp, by simp, h1, h2, h3⟩

/-- Witness for C3 from the playing state `stV`. -/
theorem C3_witness :
    stV.videoPlaying = true ∧
    ((step envA stV Event.videoEnd).videoPlaying = false ∧
     (step envA stV Event.videoEnd).display =
       Display.image envA.config.welcome_image ∧
     (step envA stV Event.videoEnd).inactivityTimer = some stV.nextTimerId ∧
     stV.nextTimerId ∈ (step envA stV Event.videoEnd).pendingTimers ∧
     (step envA stV Event.videoEnd).nextTimerId = stV.nextTimerId + 1) :=
  ⟨rfl, C3_video_end_returns_to_welcome_and_restarts_timer envA stV rfl
    (by decide) (by decide)⟩

/-- C4: while a video is playing, `reset_inactivity_timer` cancels any
pending callback and arms no new one, and an expiring inactivity timeout
leaves the state unchanged; after every successful image display through
`display_rfid_media` a fresh inactivity timer is armed. -/
theorem C4_timer_suppressed_during_video (env : Env) :
    (∀ s : AppState, TimerInv s → s.videoPlaying = true →
      (reset_inactivity_timer env s).pendingTimers = [] ∧
      (reset_inactivity_timer env s).inactivityTimer = none ∧
      (reset_inactivity_timer env s).nextTimerId = s.nextTimerId) ∧
    (∀ s : AppState, s.videoPlaying = true → _on_inactivity_timeout env s = s) ∧
    (∀ (s : AppState) (code media : String),
      env.config.rfid_mappings.lookup code = some media →
      is_video_file media = false →
      env.mediaExists media = true → env.imageLoadOk media = true →
      ∃ id, (display_rfid_media env code s).inactivityTimer = some id ∧
        id ∈ (display_rfid_media env code s).pendingTimers) := by
  refine ⟨?_, ?_, ?_⟩
  · intro s hinv h
    exact reset_cancels_only_when_video env s hinv h
  · intro s h
    unfold _on_inactivity_timeout
    rw [if_neg (by simp [h])]
  · intro s code media hmap hvid hex hio
    unfold display_rfid_media
    simp only [hmap]
    rw [show load_and_display_media env media s = load_and_display_image env media s by
      unfold load_and_display_media; simp [hvid]]
    rw [load_and_display_image_ok env media s hex hio]
    simp only [hvid]
    obtain ⟨h1, h2, _⟩ := reset_arms env
      (logMsg ("Displayed " ++ "image" ++ " for RFID " ++ code ++ ": " ++ media)
        { stop_video s with display := Display.image media }) (by simp)
    exact ⟨_, h1, h2⟩

/-- Witness for C4: suppression at the playing state `stV`, arming at the
idle state `stA` with the image mapping `tag1 ↦ pic.jpg`. -/
theorem C4_witness :
    TimerInv stV ∧ stV.videoPlaying = true ∧
    ((reset_inactivity_timer envA stV).pendingTimers = [] ∧
     (reset_inactivity_timer envA stV).inactivityTimer = none ∧
     (reset_inactivity_timer envA stV).nextTimerId = stV.nextTimerId) ∧
    _on_inactivity_timeout envA stV = stV ∧
    (∃ id, (display_rfid_media envA "tag1" stA).inactivityTimer = some id ∧
      id ∈ (display_rfid_media envA "tag1" stA).pendingTimers) :=
  ⟨by decide, rfl,
   (C4_timer_suppressed_during_video envA).1 stV (by decide) rfl,
   (C4_timer_suppressed_during_video envA).2.1 stV rfl,
   (C4_timer_suppressed_during_video envA).2.2 stA "tag1" "pic.jpg"
     (by decide) (by decide) (by decide) (by decide)⟩

/-- C5 as amended: each printable character is appended to the buffer; on
Enter a non-empty buffer is cleared and its whitespace-stripped content is
emitted as the tag code when that stripped content is non-empty — with no
length validation — while a whitespace-only buffer is discarded without
emitting a code. -/
theorem C5_amended_input_handling (env : Env) :
    (∀ (s : AppState) (c : Char), pyIsPrintable c = true →
      on_key_press env (KeyEvent.char c) s =
        { s with rfidBuffer := s.rfidBuffer.push c }) ∧
    (∀ s : AppState, s.rfidBuffer ≠ "" → pyStrip s.rfidBuffer ≠ "" →
      (on_key_press env KeyEvent.enter s).processedCodes =
        s.processedCodes ++ [pyStrip s.rfidBuffer] ∧
      (on_key_press env KeyEvent.enter s).rfidBuffer = "") ∧
    (∀ s : AppState, s.rfidBuffer ≠ "" → pyStrip s.rfidBuffer = "" →
      (on_key_press env KeyEvent.enter s).processedCodes = s.processedCodes ∧
      (on_key_press env KeyEvent.enter s).rfidBuffer = "") := by
  refine ⟨?_, ?_, ?_⟩
  · intro s c hc
    show (if pyIsPrintable c = true then
        { s with rfidBuffer := s.rfidBuffer.push c } else s) = _
    rw [if_pos hc]
  · intro s hne hstrip
    have hred : on_key_press env KeyEvent.enter s =
        if s.rfidBuffer ≠ "" then
          _process_rfid_input env (pyStrip s.rfidBuffer) { s with rfidBuffer := "" }
        else s := rfl
    rw [hred, if_pos hne]
    unfold _process_rfid_input
    dsimp only
    rw [pyStrip_idem, if_pos hstrip]
    constructor
    · exact (processedCodes_of_inputData (inputData_reset_display env _ _ _)).trans rfl
    · exact (rfidBuffer_of_inputData (inputData_reset_display env _ _ _)).trans rfl
  · intro s hne hstrip
    have hred : on_key_press env KeyEvent.enter s =
        if s.rfidBuffer ≠ "" then
          _process_rfid_input env (pyStrip s.rfidBuffer) { s with rfidBuffer := "" }
        else s := rfl
    rw [hred, if_pos hne]
    unfold _process_rfid_input
    dsimp only
    rw [pyStrip_idem, if_neg (by simp [hstrip])]
    exact ⟨rfl, rfl⟩

/-- Counterexample to C5 as stated: the buffer `" "` is non-empty, yet
Enter emits no tag code at all (the code strips the buffer and discards
the empty result), so not every non-empty buffer is accepted. -/
theorem C5_counterexample_whitespace_buffer :
    stSpace.rfidBuffer = " " ∧ stSpace.rfidBuffer ≠ "" ∧
    (on_key_press envA KeyEvent.enter stSpace).processedCodes = [] ∧
    (on_key_press envA KeyEvent.enter stSpace).rfidBuffer = "" := by
  exact ⟨rfl, by decide, by decide, by decide⟩

/-- Witness for C5 (amended): a printable character, a strippable
accepted buffer, and a discarded whitespace-only buffer. -/
theorem C5_witness :
    (on_key_press envA (KeyEvent.char 'a') stA =
      { stA with rfidBuffer := stA.rfidBuffer.push 'a' }) ∧
    ((on_key_press envA KeyEvent.enter stTag).processedCodes =
        stTag.processedCodes ++ [pyStrip stTag.rfidBuffer] ∧
      (on_key_press envA KeyEvent.enter stTag).rfidBuffer = "") ∧
    ((on_key_press envA KeyEvent.enter stSpace).processedCodes =
        stSpace.processedCodes ∧
      (on_key_press envA KeyEvent.enter stSpace).rfidBuffer = "") :=
  ⟨(C5_amended_input_handling envA).1 stA 'a' (by decide),
   (C5_amended_input_handling envA).2.1 stTag (by decide) (by decide),
   (C5_amended_input_handling envA).2.2 stSpace (by decide) (by decide)⟩

/-- C6: a mapped tag whose media fails to load makes `display_rfid_media`
log the failure and fall back to the welcome image, without crashing. -/
theorem C6_load_failure_falls_back_to_welcome (env : Env) (s : AppState)
    (code media : String)
    (hmap : env.config.rfid_mappings.lookup code = some media)
    (hfail : (load_and_display_media env media s).1 = false)
    (hw : env.mediaExists env.config.welcome_image = true)
    (hl : env.imageLoadOk env.config.welcome_image = true) :
    ("Failed to load media for RFID " ++ code ++ ": " ++ media) ∈
      (display_rfid_media env code s).log ∧
    (display_rfid_media env code s).display =
      Display.image env.config.welcome_image := by
  have hbranch : display_rfid_media env code s =
      display_welcome_image env
        (logMsg ("Failed to load media for RFID " ++ code ++ ": " ++ media)
          (load_and_display_media env media s).2) := by
    unfold display_rfid_media
    simp only [hmap]
    rw [if_neg (by simp [hfail])]
  rw [hbranch, display_welcome_image_ok env _ hw hl]
  constructor
  · simp
  · simp

/-- Witness for C6: in `envB` the mapped file `ghost.png` is missing. -/
theorem C6_witness :
    envB.config.rfid_mappings.lookup "tagX" = some "ghost.png" ∧
    (load_and_display_media envB "ghost.png" stA).1 = false ∧
    (("Failed to load media for RFID " ++ "tagX" ++ ": " ++ "ghost.png") ∈
        (display_rfid_media envB "tagX" stA).log ∧
      (display_rfid_media envB "tagX" stA).display =
        Display.image envB.config.welcome_image) :=
  ⟨by decide, by decide,
   C6_load_failure_falls_back_to_welcome envB stA "tagX" "ghost.png"
     (by decide) (by decide) (by decide) (by decide)⟩

/-- C10: in every reachable program state at most one inactivity callback
is pending, because `reset_inactivity_timer` always cancels the stored
pending timer before possibly arming a new one. -/
theorem C10_at_most_one_pending_inactivity_timer (env : Env) (s : AppState)
    (h : Reachable env s) : s.pendingTimers.length ≤ 1 :=
  (timerInv_reachable env s h).1

/-- Witness for C10 at the initial state. -/
theorem C10_witness :
    Reachable envA (initState envA) ∧ (initState envA).pendingTimers.length ≤ 1 :=
  ⟨Reachable.init,
   C10_at_most_one_pending_inactivity_timer envA (initState envA) Reachable.init⟩

/-- C7: a missing configuration file makes `load_config` fail with the
message directing the operator to run calibration first; no default
configuration is returned. -/
theorem C7_missing_config_is_fatal (e : ConfigEnv) (h : e.configExists = false) :
    load_config e = Except.error configMissingMsg ∧
    (∃ pre post, configMissingMsg = pre ++ "Please run calibrate.py first" ++ post) ∧
    ∀ c : Config, load_config e ≠ Except.ok c := by
  have h1 : load_config e = Except.error configMissingMsg := by
    unfold load_config; simp [h]
  refine ⟨h1,
    ⟨"Configuration file config.json not found.\n", " to set up the system.", by decide⟩,
    ?_⟩
  intro c hc
  rw [h1] at hc
  exact Except.noConfusion hc

/-- Witness for C7 at a world with no `config.json`. -/
theorem C7_witness :
    ConfigEnv.configExists { configExists := false, parsed := none } = false ∧
    load_config { configExists := false, parsed := none } =
      Except.error configMissingMsg :=
  ⟨rfl, (C7_missing_config_is_fatal { configExists := false, parsed := none } rfl).1⟩

/-- C8: the displayed size of a `w × h` image on a `W × H` screen uses the
single uniform scale factor `min (W/w) (H/h)` on both dimensions and fits
within the screen. -/
theorem C8_uniform_scale_to_fit (W H w h : ℕ) (hw : 0 < w) (hh : 0 < h) :
    ∃ s : ℚ, s = min ((W : ℚ) / (w : ℚ)) ((H : ℚ) / (h : ℚ)) ∧
      computeScaledSize W H w h =
        ((Int.floor ((w : ℚ) * s)).toNat, (Int.floor ((h : ℚ) * s)).toNat) ∧
      (computeScaledSize W H w h).1 ≤ W ∧ (computeScaledSize W H w h).2 ≤ H := by
  refine ⟨min ((W : ℚ) / (w : ℚ)) ((H : ℚ) / (h : ℚ)), rfl, rfl, ?_, ?_⟩
  · show (Int.floor ((w : ℚ) * min ((W : ℚ) / w) ((H : ℚ) / h))).toNat ≤ W
    refine Int.toNat_le.mpr ?_
    have hx : (w : ℚ) * min ((W : ℚ) / w) ((H : ℚ) / h) ≤ (W : ℚ) := by
      calc (w : ℚ) * min ((W : ℚ) / w) ((H : ℚ) / h)
          ≤ (w : ℚ) * ((W : ℚ) / w) :=
            mul_le_mul_of_nonneg_left (min_le_left _ _) (by positivity)
        _ = (W : ℚ) := by
            field_simp
    have := Int.floor_mono hx
    rwa [Int.floor_natCast] at this
  · show (Int.floor ((h : ℚ) * min ((W : ℚ) / w) ((H : ℚ) / h))).toNat ≤ H
    refine Int.toNat_le.mpr ?_
    have hx : (h : ℚ) * min ((W : ℚ) / w) ((H : ℚ) / h) ≤ (H : ℚ) := by
      calc (h : ℚ) * min ((W : ℚ) / w) ((H : ℚ) / h)
          ≤ (h : ℚ) * ((H : ℚ) / h) :=
            mul_le_mul_of_nonneg_left (min_le_right _ _) (by positivity)
        _ = (H : ℚ) := by
            field_simp
    have := Int.floor_mono hx
    rwa [Int.floor_natCast] at this

/-- Witness for C8 on a 1920×1080 screen and a 640×480 image. -/
theorem C8_witness :
    0 < 640 ∧ 0 < 480 ∧
    (∃ s : ℚ, s = min ((1920 : ℚ) / (640 : ℚ)) ((1080 : ℚ) / (480 : ℚ)) ∧
      computeScaledSize 1920 1080 640 480 =
        ((Int.floor ((640 : ℚ) * s)).toNat, (Int.floor ((480 : ℚ) * s)).toNat) ∧
      (computeScaledSize 1920 1080 640 480).1 ≤ 1920 ∧
      (computeScaledSize 1920 1080 640 480).2 ≤ 1080) :=
  ⟨by decide, by decide,
   C8_uniform_scale_to_fit 1920 1080 640 480 (by decide) (by decide)⟩

/-- C9: image/video dispatch is decided solely by the file extension:
`is_video_file` holds exactly when the lowercased suffix is one of
`.mp4, .avi, .mov, .mkv, .wmv, .flv, .webm`, and `load_and_display_media`
plays a video exactly on such filenames, treating every other filename as
an image. -/
theorem C9_dispatch_by_extension :
    (∀ f : String, is_video_file f = true ↔ specSuffixIsVideo f) ∧
    (∀ (env : Env) (f : String) (s : AppState),
      load_and_display_media env f s =
        if is_video_file f then play_video env f s
        else load_and_display_image env f s) := by
  constructor
  · intro f
    unfold is_video_file specSuffixIsVideo video_extensions
    exact List.elem_iff
  · intro env f s
    rfl

end RFIDKiosk
